import Mathlib

/-!
Verification of the GPS/GSM tracker sketch (Phosphatide/gps-gsm_module).

Shallow embedding of the Arduino sketch's main loop. The vendor drivers
(Adafruit_GPS, Adafruit_FONA, SoftwareSerial) are black boxes: their
observable interactions are modelled as per-tick inputs (parse outcome,
modem message count, read/sender success, bring-up success) and as an
emitted event trace (listen switches, modem calls, SMS sends, alarm
bursts). Machine integers: `millis()` is a `uint32_t` clock, so timer
arithmetic is carried out modulo 2^32 on `Nat`. Float formatting
(`dtostrf` of the coordinate fields) is abstracted to integer rendering;
no property below depends on it. Serial diagnostic prints are not
modelled.
-/

namespace Tracker

/-- Modulus of the 32-bit `millis()` clock. -/
def U32 : Nat := 4294967296

/-- Period of the periodic location report, ms (`millis() - gpsTimer > 300000`). -/
def reportPeriod : Nat := 300000

/-- Period of the inbound-message poll, ms (`millis() - fonaTimer > 2000`). -/
def pollPeriod : Nat := 2000

/-- Declared capacity of the global reply buffer (`char replybuffer[161]`). -/
def replybufferSize : Nat := 161

/-- Maximum-length argument passed to `fona.readSMS(smsnum, replybuffer, 250, &smslen)`. -/
def readSMSMaxLen : Nat := 250

/-- Fixed destination identifier (`char sendto[21] = "+###########"`). -/
def sendto : String := "+###########"

/-- Position fix as exposed by the GPS driver: validity flag plus
coordinates (`GPS.fix`, `GPS.latitudeDegrees`, `GPS.longitudeDegrees`,
`GPS.altitude`; the float fields are abstracted to `Int`). -/
structure Fix where
  valid : Bool
  latitude : Int
  longitude : Int
  altitude : Int
deriving DecidableEq, Repr

/-- Wraparound guard: `if (gpsTimer > millis()) gpsTimer = millis();`. -/
def wrapReset (t now : Nat) : Nat := if t > now then now else t

/-- Unsigned 32-bit subtraction `now - t` as the C expression
`millis() - timer` computes it (arguments assumed below 2^32). -/
def elapsedU32 (now t : Nat) : Nat := (now + U32 - t) % U32

/-- Timer due check and reset: `if (millis() - timer > period) { timer = millis(); ... }`.
Returns (due?, new timer value). -/
def dueAndReset (period t now : Nat) : Bool × Nat :=
  if period < elapsedU32 now t then (true, now) else (false, t)

/-- One full per-tick treatment of a timer: the wraparound guard followed
by the due check, both against the same clock reading. -/
def timerStep (period t now : Nat) : Bool × Nat :=
  dueAndReset period (wrapReset t now) now

/-- Observable driver interactions of one `loop()` pass. -/
inductive Event
  | listenGPS
  | listenFona
  | bringup
  | halt
  | getNumSMS
  | readSMS (idx : Int) (maxlen : Nat)
  | getSender (idx : Int)
  | sendSMS (dest text : String)
  | alarmBurst
deriving DecidableEq, Repr

/-- Environment of one `loop()` pass: the clock reading, the GPS parse
outcome (`none`: no complete sentence; `some none`: sentence received but
`GPS.parse` failed; `some (some f)`: parse succeeded producing fix `f`),
the modem's message count, the outcomes of `readSMS`/`getSMSSender`, the
inbound payload and sender, and the `fona.begin` outcome with the message
count snapshotted at bring-up. -/
structure TickInput where
  now : Nat
  sentence : Option (Option Fix)
  smsCount : Int
  readOk : Bool
  senderOk : Bool
  payload : String
  sender : String
  bringupOk : Bool
  bringupCount : Int
deriving DecidableEq, Repr

/-- Mutable globals of the sketch: the GPS driver's stored fix, `beeping`,
`fonaSetup`, `startSMS`, `gpsTimer`, `fonaTimer`. -/
structure TrackerState where
  gpsFix : Fix
  beeping : Bool
  fonaSetup : Bool
  startSMS : Int
  gpsTimer : Nat
  fonaTimer : Nat
deriving DecidableEq, Repr

/-- ASCII lowercase conversion, as `String::toLowerCase()` performs
character-wise. -/
def lowered (s : String) : String := ⟨s.data.map Char.toLower⟩

/-- Coordinate string `"<lat>, <lon>, <alt>"` assembled at lines 197-209
(`dtostrf` float rendering abstracted to integer rendering). -/
def formatCoords (f : Fix) : String :=
  toString f.latitude ++ ", " ++ toString f.longitude ++ ", " ++ toString f.altitude

/-- Command dispatch on a fetched message (lines 229-270): lowercase the
payload, then match `"gps"` (reply coordinates, or the fixed no-fix error
text), `"beep"` (toggle `beeping`, reply the resulting state), anything
else (reply `"INVALID COMMAND"`). Returns the send events and the new
`beeping` value. -/
def interpretCommand (fix : Bool) (coords : String) (beeping : Bool)
    (payload sender : String) : List Event × Bool :=
  if lowered payload = "gps" then
    if fix then ([Event.sendSMS sender coords], beeping)
    else ([Event.sendSMS sender "ERROR: NO GPS FIX"], beeping)
  else if lowered payload = "beep" then
    if beeping then ([Event.sendSMS sender "BEEPING OFF"], false)
    else ([Event.sendSMS sender "BEEPING ON"], true)
  else ([Event.sendSMS sender "INVALID COMMAND"], beeping)

/-- Body of the due poll window (lines 219-273): switch the channel to the
modem, read the message count, and if it exceeds the baseline re-read the
count into the baseline, fetch the newest message and its sender, and
dispatch it. Returns (events, new beeping, new baseline). -/
def pollBlock (fix : Bool) (coords : String) (beeping : Bool) (startSMS : Int)
    (i : TickInput) : List Event × Bool × Int :=
  if startSMS < i.smsCount then
    if i.readOk then
      if i.senderOk then
        let r := interpretCommand fix coords beeping i.payload i.sender
        ([Event.listenFona, Event.getNumSMS, Event.getNumSMS,
          Event.readSMS i.smsCount readSMSMaxLen, Event.getSender i.smsCount] ++ r.1,
         r.2, i.smsCount)
      else
        ([Event.listenFona, Event.getNumSMS, Event.getNumSMS,
          Event.readSMS i.smsCount readSMSMaxLen, Event.getSender i.smsCount],
         beeping, i.smsCount)
    else
      ([Event.listenFona, Event.getNumSMS, Event.getNumSMS,
        Event.readSMS i.smsCount readSMSMaxLen], beeping, i.smsCount)
  else
    ([Event.listenFona, Event.getNumSMS], beeping, startSMS)

/-- Body of the due report window (lines 279-288): switch the channel to
the modem and send the coordinates, or the fixed no-fix warning, to the
configured destination. -/
def reportBlock (fix : Bool) (coords : String) : List Event :=
  if fix then [Event.listenFona, Event.sendSMS sendto coords]
  else [Event.listenFona, Event.sendSMS sendto "WARNING: NO GPS FIX"]

/-- Stored fix after this tick's sentence processing: a successful parse
replaces it wholly, otherwise it is unchanged. -/
def stepFix (s : TrackerState) (i : TickInput) : Fix :=
  match i.sentence with
  | some (some f) => f
  | _ => s.gpsFix

/-- Guarded modem section of one pass (lines 215-290): when `up` (the
value of `fonaSetup` after any bring-up this tick) and the poll timer is
due, run the poll window; when `up` and the report timer is due, run the
report window. Returns (events, new beeping, new baseline, new fonaTimer,
new gpsTimer). -/
def fonaPhase (up fix : Bool) (coords : String) (beeping : Bool)
    (base : Int) (ft0 gt0 : Nat) (i : TickInput) :
    List Event × Bool × Int × Nat × Nat :=
  let pr :=
    if up = true ∧ pollPeriod < elapsedU32 i.now ft0 then
      let pb := pollBlock fix coords beeping base i
      (pb.1, pb.2.1, pb.2.2, i.now)
    else (([] : List Event), beeping, base, ft0)
  let rr :=
    if up = true ∧ reportPeriod < elapsedU32 i.now gt0 then
      (reportBlock fix coords, i.now)
    else (([] : List Event), gt0)
  (pr.1 ++ rr.1, pr.2.1, pr.2.2.1, pr.2.2.2, rr.2)

/-- One pass of `loop()` (lines 157-303). Returns the emitted events and
the next state, or `none` when the pass ended in the `while(1)` stall of a
failed modem bring-up. A sentence that fails to parse returns early,
leaving all state unchanged. -/
def loopStep (s : TrackerState) (i : TickInput) : List Event × Option TrackerState :=
  if i.sentence = some none then
    ([Event.listenGPS], some s)
  else
    let gfix := stepFix s i
    let fix := gfix.valid
    let gt0 := wrapReset s.gpsTimer i.now
    let ft0 := wrapReset s.fonaTimer i.now
    let coords := formatCoords gfix
    if fix = true ∧ s.fonaSetup = false ∧ i.bringupOk = false then
      ([Event.listenGPS, Event.bringup, Event.halt], none)
    else
      let doSetup : Bool := fix && !s.fonaSetup
      let setupEv : List Event := if doSetup then [Event.bringup] else []
      let base0 : Int := if doSetup then i.bringupCount else s.startSMS
      let up : Bool := s.fonaSetup || doSetup
      let fp := fonaPhase up fix coords s.beeping base0 ft0 gt0 i
      let alarmEv : List Event := if fp.2.1 then [Event.alarmBurst] else []
      (Event.listenGPS :: (setupEv ++ fp.1 ++ alarmEv),
       some { gpsFix := gfix, beeping := fp.2.1, fonaSetup := up,
              startSMS := fp.2.2.1, gpsTimer := fp.2.2.2.2, fonaTimer := fp.2.2.2.1 })

/-- State at the first `loop()` entry: globals zero-initialized, `beeping`
and `fonaSetup` false, both timers initialized to the same startup clock
reading (lines 154-155), and the GPS driver reporting no fix yet. -/
def initState (t0 : Nat) : TrackerState :=
  { gpsFix := { valid := false, latitude := 0, longitude := 0, altitude := 0 },
    beeping := false, fonaSetup := false, startSMS := 0,
    gpsTimer := t0, fonaTimer := t0 }

/-- Event traces of successive `loop()` passes; a bring-up failure stall
ends the run. -/
def run (s : TrackerState) : List TickInput → List (List Event)
  | [] => []
  | i :: rest =>
    match loopStep s i with
    | (ev, some s') => ev :: run s' rest
    | (ev, none) => [ev]

/-- State after a list of `loop()` passes, `none` when a pass stalled. -/
def runState (s : TrackerState) : List TickInput → Option TrackerState
  | [] => some s
  | i :: rest =>
    match loopStep s i with
    | (_, some s') => runState s' rest
    | (_, none) => none

/-- Events that touch the modem: channel switches to it, bring-up (with
its stall on failure), count polls, message reads, sender fetches, sends. -/
def isModemEvent : Event → Bool
  | Event.listenGPS => false
  | Event.alarmBurst => false
  | _ => true

/-- Recognizer for the bring-up event. -/
def isBringup : Event → Bool
  | Event.bringup => true
  | _ => false

/-- Recognizer for message-read events. -/
def isReadSMS : Event → Bool
  | Event.readSMS _ _ => true
  | _ => false

/-- Number of bring-ups in one tick's events. -/
def bringupCountOf (evs : List Event) : Nat := evs.countP isBringup

/-- Number of bring-ups across a whole run. -/
def totalBringups (tr : List (List Event)) : Nat := (tr.map bringupCountOf).sum

/-- Validity of the fix a tick would observe, as a function of the input
alone: true exactly when the tick parses a sentence into a valid fix. -/
def fixInput (i : TickInput) : Bool :=
  match i.sentence with
  | some (some f) => f.valid
  | _ => false

/-- Concrete pre-fix tick: no sentence, no fix yet. -/
def quietTick : TickInput :=
  { now := 5, sentence := none, smsCount := 0, readOk := false, senderOk := false,
    payload := "", sender := "", bringupOk := true, bringupCount := 0 }

/-- Concrete tick whose sentence parses into a valid fix. -/
def firstFixTick : TickInput :=
  { now := 6, sentence := some (some ⟨true, 40, -74, 10⟩), smsCount := 0, readOk := false,
    senderOk := false, payload := "", sender := "", bringupOk := true, bringupCount := 0 }

/-- Concrete running state with the alarm active and the modem up. -/
def noParseState : TrackerState :=
  { gpsFix := ⟨true, 1, 2, 3⟩, beeping := true, fonaSetup := true, startSMS := 0,
    gpsTimer := 0, fonaTimer := 0 }

/-- Concrete tick whose sentence fails to parse, with the poll otherwise
due and a new message waiting. -/
def noParseTick : TickInput :=
  { now := 10000, sentence := some none, smsCount := 5, readOk := true, senderOk := true,
    payload := "beep", sender := "+15550001111", bringupOk := true, bringupCount := 0 }

/-- Concrete running state with baseline message count 2. -/
def pollState : TrackerState :=
  { gpsFix := ⟨false, 0, 0, 0⟩, beeping := false, fonaSetup := true, startSMS := 2,
    gpsTimer := 0, fonaTimer := 0 }

/-- Concrete poll-due tick reporting message count 3. -/
def newMsgTick : TickInput :=
  { now := 3000, sentence := none, smsCount := 3, readOk := true, senderOk := true,
    payload := "status", sender := "+15550001111", bringupOk := true, bringupCount := 0 }

/-- Concrete later poll-due tick still reporting message count 3. -/
def sameCountTick : TickInput :=
  { now := 6000, sentence := none, smsCount := 3, readOk := true, senderOk := true,
    payload := "status", sender := "+15550001111", bringupOk := true, bringupCount := 0 }

/-- State reached from `pollState` after consuming `newMsgTick`. -/
def afterPollState : TrackerState :=
  { gpsFix := ⟨false, 0, 0, 0⟩, beeping := false, fonaSetup := true, startSMS := 3,
    gpsTimer := 0, fonaTimer := 3000 }

/-- Concrete running state with no valid fix stored. -/
def noFixState : TrackerState :=
  { gpsFix := ⟨false, 0, 0, 0⟩, beeping := false, fonaSetup := true, startSMS := 0,
    gpsTimer := 0, fonaTimer := 0 }

/-- Concrete poll-due tick carrying an inbound "GPS" query. -/
def gpsQueryTick : TickInput :=
  { now := 2500, sentence := none, smsCount := 1, readOk := true, senderOk := true,
    payload := "GPS", sender := "+15550001111", bringupOk := true, bringupCount := 0 }

/-- Concrete running state with baseline 2, used to exhibit the
message-read call. -/
def bugState : TrackerState :=
  { gpsFix := ⟨false, 0, 0, 0⟩, beeping := false, fonaSetup := true, startSMS := 2,
    gpsTimer := 0, fonaTimer := 0 }

/-- Concrete poll-due tick with a new message to fetch. -/
def bugTick : TickInput :=
  { now := 2500, sentence := none, smsCount := 3, readOk := true, senderOk := true,
    payload := "gps", sender := "+15550001111", bringupOk := true, bringupCount := 0 }

/-- Concrete state after a completed bring-up. -/
def steadyState : TrackerState :=
  { gpsFix := ⟨true, 1, 2, 3⟩, beeping := false, fonaSetup := true, startSMS := 0,
    gpsTimer := 0, fonaTimer := 0 }

/-- Concrete uneventful tick. -/
def steadyTick : TickInput :=
  { now := 100, sentence := none, smsCount := 0, readOk := false, senderOk := false,
    payload := "", sender := "", bringupOk := true, bringupCount := 0 }

end Tracker

namespace Tracker

theorem elapsedU32_of_le (t now : Nat) (h1 : t ≤ now) (h2 : now < U32) :
    elapsedU32 now t = now - t := by
  unfold elapsedU32 U32 at *
  omega

theorem elapsedU32_self (now : Nat) : elapsedU32 now now = 0 := by
  unfold elapsedU32 U32
  omega

theorem wrapReset_of_le (t now : Nat) (h : t ≤ now) : wrapReset t now = t := by
  unfold wrapReset
  split <;> omega

theorem wrapReset_of_gt (t now : Nat) (h : now < t) : wrapReset t now = now := by
  unfold wrapReset
  split <;> omega

/-- C1 counterexample: with `lastFired = 0` and `now = 300000` (elapsed
exactly the 300000 ms period) the report timer check
`millis() - gpsTimer > 300000` is NOT due, because the comparison is
strict; the claim says it is due there. -/
theorem report_timer_not_due_at_exact_period :
    ¬ ((dueAndReset reportPeriod 0 300000).1 = true) := by
  decide

/-- C1 (amended): the report timer with period 300000 ms fires exactly when
the elapsed time strictly exceeds the period: at elapsed 299999 not due, at
elapsed exactly 300000 not due, at elapsed 300001 due with `lastFired` set
to `now`; immediately re-checked at the same clock value it is not due
(at most one firing without the clock moving forward). In general, for
`lastFired ≤ now` below the clock width, the check is due iff
`now - lastFired > 300000`, resetting `lastFired` on firing and leaving it
unchanged otherwise. -/
theorem report_timer_fires_strictly_after_period :
    dueAndReset reportPeriod 0 299999 = (false, 0) ∧
    dueAndReset reportPeriod 0 300000 = (false, 0) ∧
    dueAndReset reportPeriod 0 300001 = (true, 300001) ∧
    dueAndReset reportPeriod 300001 300001 = (false, 300001) ∧
    (∀ t now, t ≤ now → now < U32 →
      ((dueAndReset reportPeriod t now).1 = true ↔ reportPeriod < now - t) ∧
      (reportPeriod < now - t → dueAndReset reportPeriod t now = (true, now)) ∧
      (now - t ≤ reportPeriod → dueAndReset reportPeriod t now = (false, t))) := by
  refine ⟨by decide, by decide, by decide, by decide, ?_⟩
  intro t now h1 h2
  have he : elapsedU32 now t = now - t := elapsedU32_of_le t now h1 h2
  unfold dueAndReset
  rw [he]
  constructor
  · constructor
    · intro hd
      by_contra hc
      simp [if_neg hc] at hd
    · intro hlt
      simp [if_pos hlt]
  · constructor
    · intro hlt
      simp [if_pos hlt]
    · intro hle
      have : ¬ reportPeriod < now - t := by omega
      simp [if_neg this]

/-- Witness for the universally quantified part of the amended C1 theorem,
instantiated at `lastFired = 5`, `now = 400006`. -/
theorem report_timer_fires_strictly_after_period_witness :
    (5 ≤ 400006 ∧ 400006 < U32) ∧ dueAndReset reportPeriod 5 400006 = (true, 400006) :=
  ⟨⟨by decide, by decide⟩,
   (report_timer_fires_strictly_after_period.2.2.2.2 5 400006 (by decide)
     (by decide)).2.1 (by decide)⟩

/-- C3: if the millisecond clock has wrapped (`now < lastFired`), the guard
forces `lastFired = now` and the check reports not-due on that cycle, so the
wrap never causes a spurious immediate firing; moreover a timer that has
just fired (state `now`) does not fire again until the clock advances by
strictly more than the period, and any firing requires strictly more than a
period of elapsed time since `lastFired` and resets `lastFired` to `now` —
so each timer fires at most once per period across any clock sequence with
a wraparound. -/
theorem timer_wraparound_safe :
    (∀ period t now, now < t → timerStep period t now = (false, now)) ∧
    (∀ period now now', now ≤ now' → now' < U32 → now' - now ≤ period →
      timerStep period now now' = (false, now)) ∧
    (∀ period t now, t ≤ now → now < U32 → (timerStep period t now).1 = true →
      period < now - t ∧ (timerStep period t now).2 = now) := by
  refine ⟨?_, ?_, ?_⟩
  · intro period t now h
    unfold timerStep
    rw [wrapReset_of_gt t now h]
    unfold dueAndReset
    rw [elapsedU32_self]
    simp
  · intro period now now' h1 h2 h3
    unfold timerStep
    rw [wrapReset_of_le now now' h1]
    unfold dueAndReset
    rw [elapsedU32_of_le now now' h1 h2]
    have : ¬ period < now' - now := by omega
    simp [if_neg this]
  · intro period t now h1 h2 hfire
    unfold timerStep at *
    rw [wrapReset_of_le t now h1] at *
    unfold dueAndReset at *
    rw [elapsedU32_of_le t now h1 h2] at *
    by_cases hc : period < now - t
    · simp [if_pos hc] at hfire ⊢
      exact hc
    · simp [if_neg hc] at hfire

/-- Witness for C3: a concrete wrapped clock (lastFired near the top of the
32-bit range, now small) reports not-due and resets, and a just-fired timer
re-checked within the period does not fire. -/
theorem timer_wraparound_safe_witness :
    timerStep reportPeriod 4294967000 50 = (false, 50) ∧
    timerStep reportPeriod 1000 300999 = (false, 1000) :=
  ⟨timer_wraparound_safe.1 reportPeriod 4294967000 50 (by decide),
   timer_wraparound_safe.2.1 reportPeriod 1000 300999 (by decide) (by decide) (by decide)⟩

end Tracker

namespace Tracker

theorem interpret_shape (fix : Bool) (coords : String) (beeping : Bool)
    (payload sender : String) :
    ∃ msg, (interpretCommand fix coords beeping payload sender).1 = [Event.sendSMS sender msg] := by
  unfold interpretCommand
  split_ifs <;> exact ⟨_, rfl⟩

theorem interpret_no_bringup (fix : Bool) (coords : String) (beeping : Bool)
    (payload sender : String) :
    (interpretCommand fix coords beeping payload sender).1.countP isBringup = 0 := by
  obtain ⟨msg, hm⟩ := interpret_shape fix coords beeping payload sender
  simp [hm, isBringup]

theorem pollBlock_no_bringup (fix : Bool) (coords : String) (beeping : Bool)
    (base : Int) (i : TickInput) :
    (pollBlock fix coords beeping base i).1.countP isBringup = 0 := by
  unfold pollBlock
  split_ifs <;>
    simp [List.countP_append, isBringup, interpret_no_bringup]

theorem reportBlock_no_bringup (fix : Bool) (coords : String) :
    (reportBlock fix coords).countP isBringup = 0 := by
  unfold reportBlock
  split_ifs <;> simp [isBringup]

theorem fonaPhase_no_bringup (up fix : Bool) (coords : String) (beeping : Bool)
    (base : Int) (ft0 gt0 : Nat) (i : TickInput) :
    (fonaPhase up fix coords beeping base ft0 gt0 i).1.countP isBringup = 0 := by
  unfold fonaPhase
  split_ifs <;>
    simp [List.countP_append, isBringup, pollBlock_no_bringup, reportBlock_no_bringup]

theorem loopStep_bringup_le_one (s : TrackerState) (i : TickInput) :
    bringupCountOf (loopStep s i).1 ≤ 1 := by
  by_cases h1 : i.sentence = some none
  · simp [loopStep, h1, bringupCountOf, isBringup]
  · by_cases h2 : (stepFix s i).valid = true ∧ s.fonaSetup = false ∧ i.bringupOk = false
    · simp [loopStep, h1, h2, bringupCountOf, isBringup]
    · simp only [loopStep, h1, h2, if_neg, if_false, bringupCountOf]
      simp [List.countP_append, List.countP_cons, isBringup, fonaPhase_no_bringup]
      split_ifs <;> simp [isBringup]

theorem run_cons (s : TrackerState) (i : TickInput) (rest : List TickInput) :
    run s (i :: rest) =
      match loopStep s i with
      | (ev, some s') => ev :: run s' rest
      | (ev, none) => [ev] := rfl

theorem runState_cons (s : TrackerState) (i : TickInput) (rest : List TickInput) :
    runState s (i :: rest) =
      match loopStep s i with
      | (_, some s') => runState s' rest
      | (_, none) => none := rfl

theorem totalBringups_nil : totalBringups [] = 0 := rfl

theorem totalBringups_cons (evs : List Event) (tr : List (List Event)) :
    totalBringups (evs :: tr) = bringupCountOf evs + totalBringups tr := by
  simp [totalBringups]

theorem loopStep_setup_monotone (s : TrackerState) (i : TickInput)
    (hs : s.fonaSetup = true) :
    bringupCountOf (loopStep s i).1 = 0 ∧
    ∀ s', (loopStep s i).2 = some s' → s'.fonaSetup = true := by
  by_cases h1 : i.sentence = some none
  · constructor
    · simp [loopStep, h1, bringupCountOf, isBringup]
    · intro s' hn
      simp [loopStep, h1] at hn
      rw [← hn, hs]
  · have h2 : ¬((stepFix s i).valid = true ∧ s.fonaSetup = false ∧ i.bringupOk = false) := by
      simp [hs]
    constructor
    · simp [loopStep, h1, h2, hs, bringupCountOf, List.countP_append, List.countP_cons,
        isBringup, fonaPhase_no_bringup]
    · intro s' hn
      simp [loopStep, h1, h2] at hn
      rw [← hn]
      simp [hs]

theorem loopStep_next_not_setup (s : TrackerState) (i : TickInput) (s' : TrackerState)
    (hn : (loopStep s i).2 = some s') (hns : s'.fonaSetup = false) :
    bringupCountOf (loopStep s i).1 = 0 := by
  by_cases h1 : i.sentence = some none
  · simp [loopStep, h1, bringupCountOf, isBringup]
  · by_cases h2 : (stepFix s i).valid = true ∧ s.fonaSetup = false ∧ i.bringupOk = false
    · simp [loopStep, h1, h2] at hn
    · have hup : (s.fonaSetup || ((stepFix s i).valid && !s.fonaSetup)) = false := by
        simp [loopStep, h1, h2] at hn
        rw [← hn] at hns
        simpa using hns
      have hds : ((stepFix s i).valid && !s.fonaSetup) = false := by
        cases hb : (stepFix s i).valid && !s.fonaSetup
        · rfl
        · rw [hb] at hup
          simp at hup
      simp [loopStep, h1, h2, bringupCountOf, List.countP_append, List.countP_cons,
        isBringup, fonaPhase_no_bringup, hds]

theorem totalBringups_setup (inputs : List TickInput) :
    ∀ s : TrackerState, s.fonaSetup = true → totalBringups (run s inputs) = 0 := by
  induction inputs with
  | nil =>
    intro s hs
    simp [run, totalBringups]
  | cons i rest ih =>
    intro s hs
    obtain ⟨hc, hmono⟩ := loopStep_setup_monotone s i hs
    rcases h : loopStep s i with ⟨ev, os⟩
    rw [h] at hc
    cases os with
    | none =>
      rw [run_cons, h]
      simp [totalBringups_cons, totalBringups_nil]
      simpa using hc
    | some s' =>
      have hs' : s'.fonaSetup = true := hmono s' (by rw [h])
      rw [run_cons, h]
      simp only []
      rw [totalBringups_cons]
      simp at hc
      rw [ih s' hs']
      omega

theorem totalBringups_le_one (inputs : List TickInput) :
    ∀ s : TrackerState, totalBringups (run s inputs) ≤ 1 := by
  induction inputs with
  | nil =>
    intro s
    simp [run, totalBringups]
  | cons i rest ih =>
    intro s
    have hle := loopStep_bringup_le_one s i
    rcases h : loopStep s i with ⟨ev, os⟩
    rw [h] at hle
    cases os with
    | none =>
      rw [run_cons, h]
      simp only []
      rw [totalBringups_cons, totalBringups_nil]
      simpa using hle
    | some s' =>
      rw [run_cons, h]
      simp only []
      rw [totalBringups_cons]
      by_cases hs' : s'.fonaSetup = true
      · rw [totalBringups_setup rest s' hs']
        simp at hle
        omega
      · have hc := loopStep_next_not_setup s i s' (by rw [h]) (by simpa using hs')
        rw [h] at hc
        simp at hc
        rw [hc]
        simpa using ih s'

end Tracker

namespace Tracker

theorem loopStep_no_fix_no_modem (s : TrackerState) (i : TickInput)
    (hs : s.fonaSetup = false) (hv : s.gpsFix.valid = false) (hi : fixInput i = false) :
    ((loopStep s i).1.all (fun e => !isModemEvent e) = true) ∧
    ∃ s', (loopStep s i).2 = some s' ∧ s'.fonaSetup = false ∧ s'.gpsFix.valid = false := by
  by_cases h1 : i.sentence = some none
  · refine ⟨by simp [loopStep, h1, isModemEvent], s, by simp [loopStep, h1], hs, hv⟩
  · have hfix : (stepFix s i).valid = false := by
      unfold stepFix fixInput at *
      rcases hsen : i.sentence with _ | f
      · simpa [hsen] using hv
      · rcases f with _ | g
        · exact absurd hsen h1
        · simpa [hsen] using (by rw [hsen] at hi; simpa using hi)
    have h2 : ¬((stepFix s i).valid = true ∧ s.fonaSetup = false ∧ i.bringupOk = false) := by
      simp [hfix]
    have hup : (s.fonaSetup || ((stepFix s i).valid && !s.fonaSetup)) = false := by
      simp [hs, hfix]
    refine ⟨?_, ?_⟩
    · simp [loopStep, h1, h2, hfix, hs, fonaPhase, isModemEvent]
    · rcases hos : (loopStep s i).2 with _ | s'
      · simp [loopStep, h1, h2] at hos
      · refine ⟨s', rfl, ?_, ?_⟩
        · simp [loopStep, h1, h2] at hos
          rw [← hos]
          simp [hs, hfix]
        · simp [loopStep, h1, h2] at hos
          rw [← hos]
          simp [hfix]

theorem run_fixless_lead (pre : List TickInput) :
    ∀ s : TrackerState, s.fonaSetup = false → s.gpsFix.valid = false →
    (∀ i ∈ pre, fixInput i = false) →
    ∃ sk, runState s pre = some sk ∧ sk.fonaSetup = false ∧ sk.gpsFix.valid = false ∧
      (run s pre).length = pre.length ∧
      ((run s pre).all (fun evs => evs.all (fun e => !isModemEvent e)) = true) := by
  induction pre with
  | nil =>
    intro s hs hv _
    exact ⟨s, rfl, hs, hv, rfl, rfl⟩
  | cons i rest ih =>
    intro s hs hv hall
    have hi : fixInput i = false := hall i (List.mem_cons_self i rest)
    obtain ⟨hev, s', hos, hs', hv'⟩ := loopStep_no_fix_no_modem s i hs hv hi
    obtain ⟨sk, hsk, hskf, hskv, hlen, hmod⟩ :=
      ih s' hs' hv' (fun j hj => hall j (List.mem_cons_of_mem i hj))
    rcases h : loopStep s i with ⟨ev, os⟩
    rw [h] at hos hev
    cases os with
    | none => simp at hos
    | some s'' =>
      have hseq : s'' = s' := by simpa using hos
      subst hseq
      refine ⟨sk, ?_, hskf, hskv, ?_, ?_⟩
      · rw [runState_cons, h]
        exact hsk
      · rw [run_cons, h]
        simpa using hlen
      · rw [run_cons, h]
        simp only [List.all_cons]
        simp [hev, hmod]

theorem run_append_of_runState (l1 : List TickInput) :
    ∀ (s sk : TrackerState) (l2 : List TickInput), runState s l1 = some sk →
    run s (l1 ++ l2) = run s l1 ++ run sk l2 := by
  induction l1 with
  | nil =>
    intro s sk l2 hsk
    simp [runState] at hsk
    subst hsk
    simp [run]
  | cons i rest ih =>
    intro s sk l2 hsk
    rcases h : loopStep s i with ⟨ev, os⟩
    rw [runState_cons, h] at hsk
    cases os with
    | none => simp at hsk
    | some s' =>
      simp only [] at hsk
      rw [List.cons_append, run_cons, h, run_cons, h]
      simp only []
      rw [ih s' sk l2 hsk]
      simp

theorem loopStep_first_fix_bringup (s : TrackerState) (i : TickInput)
    (hs : s.fonaSetup = false) (hi : fixInput i = true) :
    Event.bringup ∈ (loopStep s i).1 := by
  have h1 : ¬ i.sentence = some none := by
    unfold fixInput at hi
    rcases hsen : i.sentence with _ | f
    · rw [hsen] at hi
      simp at hi
    · rcases f with _ | g
      · rw [hsen] at hi
        simp at hi
      · simp [hsen]
  have hfix : (stepFix s i).valid = true := by
    unfold fixInput at hi
    unfold stepFix
    rcases hsen : i.sentence with _ | f
    · rw [hsen] at hi
      simp at hi
    · rcases f with _ | g
      · rw [hsen] at hi
        simp at hi
      · rw [hsen] at hi
        simpa using hi
  by_cases h2 : (stepFix s i).valid = true ∧ s.fonaSetup = false ∧ i.bringupOk = false
  · simp [loopStep, h1, h2]
  · simp [loopStep, h1, h2, hfix, hs]
    split_ifs <;> simp

theorem interpret_no_readSMS (fix : Bool) (coords : String) (beeping : Bool)
    (payload sender : String) :
    (interpretCommand fix coords beeping payload sender).1.countP isReadSMS = 0 := by
  obtain ⟨msg, hm⟩ := interpret_shape fix coords beeping payload sender
  simp [hm, isReadSMS]

theorem pollBlock_readSMS_one (fix : Bool) (coords : String) (beeping : Bool)
    (base : Int) (i : TickInput) (hnew : base < i.smsCount) :
    (pollBlock fix coords beeping base i).1.countP isReadSMS = 1 ∧
    (pollBlock fix coords beeping base i).2.2 = i.smsCount := by
  unfold pollBlock
  simp only [if_pos hnew]
  split_ifs <;>
    simp [List.countP_append, List.countP_cons, isReadSMS, interpret_no_readSMS]

theorem pollBlock_readSMS_zero (fix : Bool) (coords : String) (beeping : Bool)
    (base : Int) (i : TickInput) (hold : ¬ base < i.smsCount) :
    (pollBlock fix coords beeping base i).1.countP isReadSMS = 0 ∧
    (pollBlock fix coords beeping base i).2.2 = base := by
  unfold pollBlock
  simp [if_neg hold, isReadSMS]

theorem reportBlock_no_readSMS (fix : Bool) (coords : String) :
    (reportBlock fix coords).countP isReadSMS = 0 := by
  unfold reportBlock
  split_ifs <;> simp [isReadSMS]

theorem reportBlock_not_readSMS (fix : Bool) (coords : String) :
    ∀ a ∈ reportBlock fix coords, isReadSMS a = false := by
  unfold reportBlock
  split_ifs <;> simp [isReadSMS]

theorem pollBlock_not_readSMS (fix : Bool) (coords : String) (beeping : Bool)
    (base : Int) (i : TickInput) (hold : ¬ base < i.smsCount) :
    ∀ a ∈ (pollBlock fix coords beeping base i).1, isReadSMS a = false := by
  unfold pollBlock
  simp [if_neg hold, isReadSMS]

theorem baseline_step (s : TrackerState) (i : TickInput)
    (hs : s.fonaSetup = true) (h1 : ¬ i.sentence = some none)
    (hdue : pollPeriod < elapsedU32 i.now (wrapReset s.fonaTimer i.now))
    (hnew : s.startSMS < i.smsCount) :
    (loopStep s i).1.countP isReadSMS = 1 ∧
    ∀ s', (loopStep s i).2 = some s' → s'.startSMS = i.smsCount ∧ s'.fonaSetup = true := by
  have h2 : ¬((stepFix s i).valid = true ∧ s.fonaSetup = false ∧ i.bringupOk = false) := by
    simp [hs]
  constructor
  · simp [loopStep, h1, h2, hs, fonaPhase, hdue, List.countP_append, List.countP_cons,
      isReadSMS, (pollBlock_readSMS_one _ _ _ _ i hnew).1, reportBlock_no_readSMS]
    split_ifs <;> simp [isReadSMS]
    exact reportBlock_not_readSMS _ _
  · intro s' hos
    simp [loopStep, h1, h2] at hos
    rw [← hos]
    constructor
    · simp [hs, fonaPhase, hdue, (pollBlock_readSMS_one _ _ _ _ i hnew).2]
    · simp [hs]

theorem no_new_message_step (s : TrackerState) (i : TickInput)
    (hs : s.fonaSetup = true) (h1 : ¬ i.sentence = some none)
    (hold : ¬ s.startSMS < i.smsCount) :
    (loopStep s i).1.countP isReadSMS = 0 := by
  have h2 : ¬((stepFix s i).valid = true ∧ s.fonaSetup = false ∧ i.bringupOk = false) := by
    simp [hs]
  simp [loopStep, h1, h2, hs, fonaPhase, List.countP_append, List.countP_cons,
    isReadSMS, reportBlock_no_readSMS]
  split_ifs <;> simp [isReadSMS] <;>
    first
      | exact ⟨pollBlock_not_readSMS _ _ _ _ i hold, reportBlock_not_readSMS _ _⟩
      | exact pollBlock_not_readSMS _ _ _ _ i hold
      | exact reportBlock_not_readSMS _ _

end Tracker

namespace Tracker

/-- C2: starting from the initial state, over any prefix of ticks none of
which parses a valid fix, every tick's events are free of modem operations
(no bring-up, no channel switch to the modem, no count poll, no message
fetch, no send) — the periodic-report and command-poll steps are skipped
entirely; and at the first tick that observes a valid fix, the modem
bring-up is performed. -/
theorem no_modem_before_first_fix (t0 : Nat) (pre : List TickInput)
    (iFix : TickInput) (rest : List TickInput)
    (hpre : ∀ i ∈ pre, fixInput i = false) (hfix : fixInput iFix = true) :
    ((run (initState t0) pre).all (fun evs => evs.all (fun e => !isModemEvent e)) = true) ∧
    (run (initState t0) pre).length = pre.length ∧
    ∃ sk, runState (initState t0) pre = some sk ∧ sk.fonaSetup = false ∧
      run (initState t0) (pre ++ iFix :: rest) =
        run (initState t0) pre ++ run sk (iFix :: rest) ∧
      Event.bringup ∈ (run sk (iFix :: rest)).headD [] := by
  obtain ⟨sk, hsk, hskf, hskv, hlen, hmod⟩ :=
    run_fixless_lead pre (initState t0) rfl rfl hpre
  refine ⟨hmod, hlen, sk, hsk, hskf,
    run_append_of_runState pre (initState t0) sk (iFix :: rest) hsk, ?_⟩
  have hb := loopStep_first_fix_bringup sk iFix hskf hfix
  rcases h : loopStep sk iFix with ⟨ev, os⟩
  rw [h] at hb
  rw [run_cons, h]
  cases os <;> simpa using hb

/-- Witness for C2: a concrete run over one fixless tick emits no modem
events. -/
theorem no_modem_before_first_fix_witness :
    (run (initState 0) [quietTick]).all
      (fun evs => evs.all (fun e => !isModemEvent e)) = true :=
  (no_modem_before_first_fix 0 [quietTick] firstFixTick [] (by decide) (by decide)).1

/-- C4: whenever a due poll observes a message count above the stored
baseline, exactly one message fetch is dispatched that tick and the
baseline is updated to the observed count in the same tick; a subsequent
tick polling the same count dispatches no fetch. -/
theorem baseline_consumed_once (s : TrackerState) (i i2 : TickInput)
    (hs : s.fonaSetup = true) (h1 : ¬ i.sentence = some none)
    (hdue : pollPeriod < elapsedU32 i.now (wrapReset s.fonaTimer i.now))
    (hnew : s.startSMS < i.smsCount)
    (h12 : ¬ i2.sentence = some none) (hsame : i2.smsCount = i.smsCount) :
    (loopStep s i).1.countP isReadSMS = 1 ∧
    ∀ s', (loopStep s i).2 = some s' →
      s'.startSMS = i.smsCount ∧ (loopStep s' i2).1.countP isReadSMS = 0 := by
  obtain ⟨hcount, hnext⟩ := baseline_step s i hs h1 hdue hnew
  refine ⟨hcount, fun s' hos => ?_⟩
  obtain ⟨hbase, hset⟩ := hnext s' hos
  refine ⟨hbase, ?_⟩
  apply no_new_message_step s' i2 hset h12
  rw [hbase, hsame]
  omega

/-- Witness for C4: from baseline 2 and observed count 3, the baseline
becomes 3 and a later poll at count 3 dispatches no fetch. -/
theorem baseline_consumed_once_witness :
    afterPollState.startSMS = newMsgTick.smsCount ∧
    (loopStep afterPollState sameCountTick).1.countP isReadSMS = 0 :=
  (baseline_consumed_once pollState newMsgTick sameCountTick rfl (by decide) (by decide)
    (by decide) (by decide) rfl).2 afterPollState (by decide)

/-- C5 counterexample: on a tick whose sentence fails to parse, the loop
returns immediately: with the alarm active and a poll otherwise due, the
pass emits only the sensor channel switch — no poll, no report check and
no alarm burst — so the tick does NOT continue with its remaining steps as
the claim states. -/
theorem parse_failure_tick_abandoned_counterexample :
    loopStep noParseState noParseTick = ([Event.listenGPS], some noParseState) ∧
    noParseState.beeping = true ∧
    ¬ (Event.alarmBurst ∈ (loopStep noParseState noParseTick).1) := by
  decide

/-- C5 (amended): on a parse failure the stored Fix is left unchanged and
the failure is not fatal (the state is preserved and the next tick
proceeds normally), but the remainder of the tick is abandoned by an early
return — report check, command poll and alarm driver are skipped that
tick; a successfully parsed sentence fully replaces the previous Fix, and
a tick with no complete sentence leaves it unchanged. -/
theorem parse_outcome_fix_semantics (s : TrackerState) (i : TickInput) :
    (i.sentence = some none → loopStep s i = ([Event.listenGPS], some s)) ∧
    (∀ f, i.sentence = some (some f) → ∀ s', (loopStep s i).2 = some s' → s'.gpsFix = f) ∧
    (i.sentence = none → ∀ s', (loopStep s i).2 = some s' → s'.gpsFix = s.gpsFix) := by
  refine ⟨?_, ?_, ?_⟩
  · intro h
    simp [loopStep, h]
  · intro f hf s' hos
    by_cases h2 : (stepFix s i).valid = true ∧ s.fonaSetup = false ∧ i.bringupOk = false
    · simp [loopStep, hf, h2] at hos
    · have h1 : ¬ i.sentence = some none := by
        rw [hf]
        simp
      simp [loopStep, h1, h2] at hos
      rw [← hos]
      simp [stepFix, hf]
  · intro hn s' hos
    by_cases h2 : (stepFix s i).valid = true ∧ s.fonaSetup = false ∧ i.bringupOk = false
    · simp [loopStep, hn, h2] at hos
    · have h1 : ¬ i.sentence = some none := by
        rw [hn]
        simp
      simp [loopStep, h1, h2] at hos
      rw [← hos]
      simp [stepFix, hn]

/-- Witness for C5 (amended): concrete parse-failure tick returns early
with the state intact. -/
theorem parse_outcome_fix_semantics_witness :
    loopStep noParseState noParseTick = ([Event.listenGPS], some noParseState) :=
  (parse_outcome_fix_semantics noParseState noParseTick).1 rfl

/-- C6: when a due poll fetches a message whose lowercased payload is
"gps" while no valid fix is stored (and none arrives this tick), the reply
sent to the sender is exactly "ERROR: NO GPS FIX". -/
theorem gps_query_no_fix_error_reply (s : TrackerState) (i : TickInput)
    (hs : s.fonaSetup = true) (h1 : ¬ i.sentence = some none)
    (hv : (stepFix s i).valid = false)
    (hdue : pollPeriod < elapsedU32 i.now (wrapReset s.fonaTimer i.now))
    (hnew : s.startSMS < i.smsCount) (hro : i.readOk = true) (hso : i.senderOk = true)
    (hpay : lowered i.payload = "gps") :
    Event.sendSMS i.sender "ERROR: NO GPS FIX" ∈ (loopStep s i).1 := by
  have h2 : ¬((stepFix s i).valid = true ∧ s.fonaSetup = false ∧ i.bringupOk = false) := by
    simp [hv]
  simp [loopStep, h1, h2, hs, hv, fonaPhase, hdue, pollBlock, hnew, hro, hso,
    interpretCommand, hpay]

/-- Witness for C6: a concrete "GPS" query with no fix stored gets the
fixed error reply. -/
theorem gps_query_no_fix_error_reply_witness :
    Event.sendSMS gpsQueryTick.sender "ERROR: NO GPS FIX"
      ∈ (loopStep noFixState gpsQueryTick).1 :=
  gps_query_no_fix_error_reply noFixState gpsQueryTick rfl (by decide) rfl (by decide)
    (by decide) rfl rfl (by decide)

/-- C7: interpreting the same payload twice from the same alarm state
yields the same reply and the same resulting state for any payload that is
not "beep" (in particular "gps" and unrecognized payloads), while two
consecutive "beep" payloads from the inactive state alternate the alarm
state and reply "BEEPING ON" then "BEEPING OFF". -/
theorem interpret_repeat_semantics (fix : Bool) (coords : String)
    (beeping : Bool) (payload sender : String) :
    (lowered payload ≠ "beep" →
      (interpretCommand fix coords beeping payload sender).2 = beeping ∧
      interpretCommand fix coords (interpretCommand fix coords beeping payload sender).2
          payload sender
        = interpretCommand fix coords beeping payload sender) ∧
    (lowered payload = "beep" → beeping = false →
      interpretCommand fix coords beeping payload sender
          = ([Event.sendSMS sender "BEEPING ON"], true) ∧
      interpretCommand fix coords true payload sender
          = ([Event.sendSMS sender "BEEPING OFF"], false)) := by
  constructor
  · intro hnb
    have h2 : (interpretCommand fix coords beeping payload sender).2 = beeping := by
      unfold interpretCommand
      split_ifs <;> simp_all
    exact ⟨h2, by rw [h2]⟩
  · intro hb hbe
    subst hbe
    have hg : lowered payload ≠ "gps" := by
      rw [hb]
      decide
    constructor
    · unfold interpretCommand
      rw [if_neg hg, if_pos hb]
      simp
    · unfold interpretCommand
      rw [if_neg hg, if_pos hb]
      simp

/-- Witness for C7: two consecutive "beep" commands from the inactive
alarm state produce opposite replies. -/
theorem interpret_repeat_semantics_witness :
    interpretCommand false "0, 0, 0" false "beep" "+15550001111"
        = ([Event.sendSMS "+15550001111" "BEEPING ON"], true) ∧
    interpretCommand false "0, 0, 0" true "beep" "+15550001111"
        = ([Event.sendSMS "+15550001111" "BEEPING OFF"], false) :=
  (interpret_repeat_semantics false "0, 0, 0" false "beep" "+15550001111").2 (by decide) rfl

end Tracker

namespace Tracker

theorem pollBlock_beeping_unrecognized (fix : Bool) (coords : String) (beeping : Bool)
    (base : Int) (i : TickInput)
    (h1 : lowered i.payload ≠ "gps") (h2 : lowered i.payload ≠ "beep") :
    (pollBlock fix coords beeping base i).2.1 = beeping := by
  unfold pollBlock
  split_ifs <;> simp [interpretCommand, h1, h2]

theorem fonaPhase_beeping_unrecognized (up fix : Bool) (coords : String)
    (beeping : Bool) (base : Int) (ft0 gt0 : Nat) (i : TickInput)
    (h1 : lowered i.payload ≠ "gps") (h2 : lowered i.payload ≠ "beep") :
    (fonaPhase up fix coords beeping base ft0 gt0 i).2.1 = beeping := by
  unfold fonaPhase
  split_ifs <;> simp [pollBlock_beeping_unrecognized fix coords beeping base i h1 h2]

/-- C8: interpreting a payload that is (case-insensitively) neither "gps"
nor "beep" produces exactly the fixed "INVALID COMMAND" reply to the
sender and returns the alarm state unchanged; and across a whole loop
pass, a tick carrying such a payload never changes the `beeping` flag. -/
theorem unrecognized_command_invalid_reply :
    (∀ (fix : Bool) (coords : String) (beeping : Bool) (payload sender : String),
      lowered payload ≠ "gps" → lowered payload ≠ "beep" →
      interpretCommand fix coords beeping payload sender
        = ([Event.sendSMS sender "INVALID COMMAND"], beeping)) ∧
    (∀ (s : TrackerState) (i : TickInput) (s' : TrackerState),
      lowered i.payload ≠ "gps" → lowered i.payload ≠ "beep" →
      (loopStep s i).2 = some s' → s'.beeping = s.beeping) := by
  constructor
  · intro fix coords beeping payload sender h1 h2
    unfold interpretCommand
    rw [if_neg h1, if_neg h2]
  · intro s i s' h1 h2 hos
    by_cases hsen : i.sentence = some none
    · simp [loopStep, hsen] at hos
      rw [← hos]
    · by_cases hh : (stepFix s i).valid = true ∧ s.fonaSetup = false ∧ i.bringupOk = false
      · simp [loopStep, hsen, hh] at hos
      · simp [loopStep, hsen, hh] at hos
        rw [← hos]
        simp [fonaPhase_beeping_unrecognized _ _ _ _ _ _ _ i h1 h2]

/-- Witness for C8: the payload "foo" gets the fixed invalid-command reply
and leaves the alarm state untouched. -/
theorem unrecognized_command_invalid_reply_witness :
    interpretCommand true "1, 2, 3" false "foo" "+15550001111"
      = ([Event.sendSMS "+15550001111" "INVALID COMMAND"], false) :=
  unrecognized_command_invalid_reply.1 true "1, 2, 3" false "foo" "+15550001111"
    (by decide) (by decide)

/-- C9: the claim that the message-read length limit stays within the
reply buffer is false in the code: a poll that detects a new message
invokes the read with maximum length 250 (`readSMSMaxLen`) into the
161-byte `replybuffer` (`replybufferSize`), so the limit exceeds the
buffer's declared capacity. -/
theorem readSMS_limit_exceeds_buffer :
    Event.readSMS 3 readSMSMaxLen ∈ (loopStep bugState bugTick).1 ∧
    replybufferSize < readSMSMaxLen := by
  decide

/-- C10: `fonaSetup` is false at startup, a pass entered with it true
performs no bring-up and keeps it true, and any run from any state
performs at most one bring-up in total. -/
theorem modem_bringup_at_most_once :
    (∀ t0, (initState t0).fonaSetup = false) ∧
    (∀ s i, s.fonaSetup = true →
      bringupCountOf (loopStep s i).1 = 0 ∧
      ∀ s', (loopStep s i).2 = some s' → s'.fonaSetup = true) ∧
    (∀ (s : TrackerState) (inputs : List TickInput), totalBringups (run s inputs) ≤ 1) :=
  ⟨fun _ => rfl, loopStep_setup_monotone, fun s inputs => totalBringups_le_one inputs s⟩

/-- Witness for C10: a concrete pass from an already-set-up state performs
no bring-up. -/
theorem modem_bringup_at_most_once_witness :
    bringupCountOf (loopStep steadyState steadyTick).1 = 0 :=
  (modem_bringup_at_most_once.2.1 steadyState steadyTick rfl).1

end Tracker
